import Mathlib

/-!
Verification development for the `token-refresh` library
(`src/authTokenRefresher.ts`): a shallow embedding of the auth-token
refresh orchestrator installed on an Axios instance, together with
theorems about its behaviour.

Modelling conventions:
* JavaScript string truthiness is modelled by `strTruthy` on
  `Option String` (absent / `null` / `""` are falsy).
* The orchestrator's mutable module state (`refreshInFlight`,
  `refreshSubscribers`, `refreshAttemptCount`, `currentAccessToken`,
  and the client's default header bag) is the record `RState`.
* A pending renewal promise is identified by a `Nat`; two callers hold
  the same pending outcome exactly when they hold the same identifier.
* The response-error interceptor runs synchronously between its `await`
  points (JavaScript is single-threaded), so it is split into the atomic
  segments `phase1` (entry up to `await getTokens()`), `phase2` (from
  the `getTokens` result up to and including the synchronous body of
  `getOrStartRefresh`) and `phase3` (resumption after the refresh
  promise settles).
* External collaborators (`getTokens`, `setTokens`, `refresh`, `logout`)
  are passed in as outcome values; callbacks and network submissions are
  recorded in the step outputs.
-/

namespace TokenRefresh

/-- JavaScript truthiness of a nullable string: `null`/`undefined` and the
empty string are falsy. -/
def strTruthy : Option String → Bool
  | none => false
  | some s => s ≠ ""

/-- Credential pair (`AuthTokens` in `types/auth`): an access token and a
refresh token, each possibly absent from the record. -/
structure AuthTokens where
  accessToken : Option String
  refreshToken : Option String
deriving DecidableEq, Repr

/-- Errors observable in the refresh flow. `axios` is a failed original
request (identity plus optional response status; the response payload is
abstracted into the identity). `refreshTimeout` is `RefreshTimeoutError`.
`invalidRefreshResponse` is `Error('Invalid refresh response - no access
token')`. `canceled` is Axios' `CanceledError`. -/
inductive Err
  | axios (id : Nat) (status : Option Nat)
  | refreshTimeout
  | refreshFailed (id : Nat)
  | invalidRefreshResponse
  | canceled (msg : String)
  | storageErr (id : Nat)
deriving DecidableEq, Repr

/-- Status used by the interceptor: `error.response?.status ?? 0`. -/
def errStatus : Err → Nat
  | .axios _ st => st.getD 0
  | _ => 0

/-- Context handed to the session-expired predicate (`status`, `data`,
`error`; the `data` payload is abstracted into the error identity). -/
structure RequestFailureContext where
  status : Nat
  error : Err
deriving DecidableEq, Repr

/-! Association-list primitives for header bags. -/

/-- Set `k` to `v`, replacing an existing binding or appending. -/
def assocSet (l : List (String × String)) (k v : String) : List (String × String) :=
  if l.any (fun p => p.1 = k) then l.map (fun p => if p.1 = k then (k, v) else p)
  else l ++ [(k, v)]

/-- Look up `k`. -/
def assocGet (l : List (String × String)) (k : String) : Option String :=
  (l.find? (fun p => p.1 = k)).map Prod.snd

/-- Remove every binding of `k`. -/
def assocDelete (l : List (String × String)) (k : String) : List (String × String) :=
  l.filter (fun p => p.1 ≠ k)

/-- A header bag in one of the two shapes the code tolerates: a map-like
object with `get`/`set`/`delete` (Axios `AxiosHeaders`) or a plain
key-value object. -/
inductive Headers
  | maplike (entries : List (String × String))
  | plain (entries : List (String × String))
deriving DecidableEq, Repr

/-- `setAuthHeader(headers, name, value)` from the source: if the bag is
absent, a fresh plain object `{[name]: value}`; if it has a `set`
function, use it; otherwise plain assignment `headers[name] = value`. -/
def setAuthHeader : Option Headers → String → String → Headers
  | none, name, value => .plain [(name, value)]
  | some (.maplike es), name, value => .maplike (assocSet es name value)
  | some (.plain es), name, value => .plain (assocSet es name value)

/-- `readHeader(headers, name)` from the source: absent bag reads as
`undefined`; map-like bags use `get`; plain bags read `headers[name] ??
headers[name.toLowerCase()]`. -/
def readHeader : Option Headers → String → Option String
  | none, _ => none
  | some (.maplike es), name => assocGet es name
  | some (.plain es), name => (assocGet es name).orElse (fun _ => assocGet es name.toLower)

/-- Read a header from a bag that is known to exist (the client's default
common headers). -/
def readHeaderBag (h : Headers) (name : String) : Option String :=
  readHeader (some h) name

/-- Exported helper `setAuthHeaders(apiInstance, token, name, build)`:
syncs the client's default header with a token, or clears it when the
token is absent/falsy. A plain-object bag keeps both the given name and
its lowercase variant in sync; a map-like bag uses `set`/`delete`. -/
def setAuthHeaders (defaults : Headers) (token : Option String)
    (name : String) (build : String → String) : Headers :=
  match defaults with
  | .plain es =>
      if strTruthy token then
        let v := build (token.getD "")
        .plain (assocSet (assocSet es name v) name.toLower v)
      else
        .plain (assocDelete (assocDelete es name) name.toLower)
  | .maplike es =>
      if strTruthy token then .maplike (assocSet es name (build (token.getD "")))
      else .maplike (assocDelete es name)

/-- Resolved options of `installAuthRefresh` (function-valued collaborators
included; storage and network collaborators are passed per step as
outcome values). -/
structure Options where
  isSessionExpired : RequestFailureContext → Bool
  isRefreshFailureTerminal : Err → Bool
  headerName : String
  headerFormat : String → String
  maxRetries : Nat
  refreshTimeout : Nat
  hasLogout : Bool

/-- Default header name (`'Authorization'`). -/
def defaultHeaderName : String := "Authorization"

/-- Default header format (`t => 'Bearer ' + t`). -/
def defaultHeaderFormat (t : String) : String := "Bearer " ++ t

/-- Default `maxRetries`. -/
def defaultMaxRetries : Nat := 3

/-- Default `refreshTimeout` in milliseconds. -/
def defaultRefreshTimeout : Nat := 10000

/-- Options with every defaultable field at its source default. -/
def mkDefaultOptions (expired : RequestFailureContext → Bool)
    (terminal : Err → Bool) : Options :=
  { isSessionExpired := expired
    isRefreshFailureTerminal := terminal
    headerName := defaultHeaderName
    headerFormat := defaultHeaderFormat
    maxRetries := defaultMaxRetries
    refreshTimeout := defaultRefreshTimeout
    hasLogout := true }

/-- One request descriptor (`InternalAxiosRequestConfig` with the
module-declared markers). `aborted` models `config.signal?.aborted`. -/
structure Config where
  skipAuthRefresh : Bool
  authRefreshRetried : Bool
  authTriedCurrent : Bool
  sentAccessToken : Option String
  headers : Option Headers
  aborted : Bool
  url : Option String
deriving DecidableEq, Repr

/-- A pending queue entry: the continuation pair is identified by `eid`
(settling the entry means invoking that continuation), together with the
queued request descriptor. -/
structure Entry where
  eid : Nat
  config : Config
deriving DecidableEq, Repr

/-- The orchestrator instance state: single in-flight renewal reference
(promise identity), subscriber queue, attempt counter, cached access
token, and the client's default common-header bag. -/
structure RState where
  refreshInFlight : Option Nat
  refreshSubscribers : List Entry
  refreshAttemptCount : Nat
  currentAccessToken : Option String
  apiDefaults : Headers
deriving DecidableEq, Repr

/-- Request interceptor: stamps outgoing requests with the latest token
and records which token went out; respects `skipAuthRefresh` and an
explicit caller-provided header. -/
def reqInterceptor (o : Options) (s : RState) (cfg : Config) : Config :=
  if cfg.skipAuthRefresh then cfg
  else
    match readHeader cfg.headers o.headerName with
    | some expl =>
        if strTruthy s.currentAccessToken &&
            expl = o.headerFormat (s.currentAccessToken.getD "") then
          { cfg with sentAccessToken := s.currentAccessToken }
        else cfg
    | none =>
        if strTruthy s.currentAccessToken then
          { cfg with
              headers := some (setAuthHeader cfg.headers o.headerName
                (o.headerFormat (s.currentAccessToken.getD "")))
              sentAccessToken := s.currentAccessToken }
        else cfg

/-- Outcome of one queue entry under `drainSuccess`: rejected with a
cancellation error, or re-submitted through the client with the rewritten
descriptor (its result forwarded to the continuation). -/
inductive EntryOutcome
  | cancelled (e : Entry)
  | resubmitted (e : Entry)
deriving DecidableEq, Repr

/-- Per-entry body of `drainSuccess`: an aborted descriptor is rejected
with `CanceledError('canceled')`; otherwise the auth header is rewritten
to the formatted new token, `_sentAccessToken` is updated and the request
is re-submitted via `api.request`. -/
def drainSuccessEntry (o : Options) (newToken : String) (e : Entry) : EntryOutcome :=
  if e.config.aborted then .cancelled e
  else
    .resubmitted { e with
      config := { e.config with
        headers := some (setAuthHeader e.config.headers o.headerName
          (o.headerFormat newToken))
        sentAccessToken := some newToken } }

/-- `drainSuccess(newToken)`: process every subscriber and empty the
queue. -/
def drainSuccess (o : Options) (s : RState) (newToken : String) :
    RState × List EntryOutcome :=
  ({ s with refreshSubscribers := [] },
   s.refreshSubscribers.map (drainSuccessEntry o newToken))

/-- `drainFailure(error)`: reject every subscriber's continuation with the
same error and empty the queue; returns the list of entries whose
continuation was invoked (each exactly once, with that error). -/
def drainFailure (s : RState) (e : Err) : RState × List Entry :=
  ({ s with refreshSubscribers := [] }, s.refreshSubscribers)

/-- Output of `getOrStartRefresh`: the state after the call, the identity
of the returned pending outcome, and whether a new network renewal call
(and the `onBeforeRefresh` notification) was started, with the refresh
token it used. -/
structure GetOrStartOut where
  state : RState
  opId : Nat
  startedNetworkCall : Bool
  calledOnBeforeRefresh : Bool
  refreshTokenUsed : Option String
deriving DecidableEq, Repr

/-- `getOrStartRefresh(refreshToken)`: if a renewal is in flight, return
that same pending outcome without any side effect; otherwise increment
the attempt counter, notify `onBeforeRefresh`, start the external renewal
call (wrapped with the timeout) and record it as in flight. `freshOpId`
identifies the newly created promise. -/
def getOrStartRefresh (s : RState) (refreshToken : String) (freshOpId : Nat) :
    GetOrStartOut :=
  match s.refreshInFlight with
  | some p =>
      { state := s, opId := p, startedNetworkCall := false
        calledOnBeforeRefresh := false, refreshTokenUsed := none }
  | none =>
      { state := { s with
          refreshAttemptCount := s.refreshAttemptCount + 1
          refreshInFlight := some freshOpId }
        opId := freshOpId
        startedNetworkCall := true
        calledOnBeforeRefresh := true
        refreshTokenUsed := some refreshToken }

/-- `withTimeout(p, ms)`: if the wrapped promise settles strictly before
the `ms` timer fires it propagates the settlement, otherwise (including a
promise that never settles, `settleTime = none`) the wrapper rejects with
`RefreshTimeoutError`. -/
def withTimeout (ms : Nat) (settleTime : Option Nat)
    (result : Except Err AuthTokens) : Except Err AuthTokens :=
  match settleTime with
  | none => .error .refreshTimeout
  | some t => if t < ms then result else .error .refreshTimeout

/-- Observable output of `terminalAuthLost`: the state afterwards, the
entries whose failure continuation was invoked (each exactly once, with
the triggering error), the callback / logout effects, and the re-thrown
error. -/
structure TerminalOut where
  state : RState
  drained : List Entry
  onRefreshFailedCalled : Bool
  logoutCalled : Bool
  thrown : Err
deriving DecidableEq, Repr

/-- `terminalAuthLost(reason, originalError)`: reset the attempt counter,
clear the cached access token, drain the queue with the triggering error,
invoke `onRefreshFailed`, remove the auth header from the client's
defaults, best-effort invoke `logout` (its rejection is swallowed by
`.catch(() => {})`, so `logoutResult` is ignored), and re-throw the
triggering error. -/
def terminalAuthLost (o : Options) (s : RState) (originalError : Err)
    (logoutResult : Except Nat Unit) : TerminalOut :=
  let s1 : RState :=
    { s with refreshAttemptCount := 0, currentAccessToken := none }
  let (s2, drained) := drainFailure s1 originalError
  { state := { s2 with
      apiDefaults := setAuthHeaders s2.apiDefaults none o.headerName o.headerFormat }
    drained := drained
    onRefreshFailedCalled := true
    logoutCalled := o.hasLogout
    thrown := originalError }

/-- Fast-path condition of the response-error interceptor: the failure
represents an expired session, a (truthy) cached access token exists, the
descriptor has not already retried with the current token, and the token
sent with the request differs from the current one — detected primarily
via the `_sentAccessToken` stamp, or as a fallback by comparing the
header value that actually went out against the formatted current token. -/
def fastPathCond (o : Options) (s : RState) (cfg : Config) (isExpired : Bool) : Bool :=
  let sentHeaderValue := readHeader cfg.headers o.headerName
  let formattedCurrent : Option String :=
    if strTruthy s.currentAccessToken then s.currentAccessToken.map o.headerFormat
    else none
  isExpired && strTruthy s.currentAccessToken && !cfg.authTriedCurrent &&
    ((strTruthy cfg.sentAccessToken &&
        cfg.sentAccessToken != s.currentAccessToken) ||
     (strTruthy sentHeaderValue && strTruthy formattedCurrent &&
        sentHeaderValue != formattedCurrent))

/-- Result of the synchronous head of the response-error interceptor:
re-throw the original error, return `api.request` of the rewritten
descriptor (stale-token fast path), or fall through towards the renewal
flow (reaching `await getTokens()`) with the renewal-attempted marker
set. -/
inductive Phase1Result
  | throwOriginal
  | retryRequest (cfg : Config)
  | proceedToRefresh (cfg : Config)
deriving DecidableEq, Repr

/-- Synchronous head of the response-error interceptor (interceptor entry
up to `await getTokens()`): honor `skipAuthRefresh` (reset counter,
re-throw), consult the session-expired predicate (reset counter, re-throw
when false), take the stale-token fast path when its condition holds
(mark `_authTriedCurrent`, rewrite the header to the formatted current
token, update `_sentAccessToken`, re-submit), re-throw when the
descriptor already attempted renewal, and otherwise mark
`_authRefreshRetried` and proceed. -/
def phase1 (o : Options) (s : RState) (cfg : Config) (err : Err) :
    RState × Phase1Result :=
  if cfg.skipAuthRefresh then
    ({ s with refreshAttemptCount := 0 }, .throwOriginal)
  else
    let isExpired := o.isSessionExpired { status := errStatus err, error := err }
    if !isExpired then
      ({ s with refreshAttemptCount := 0 }, .throwOriginal)
    else if fastPathCond o s cfg isExpired then
      let formattedCurrent :=
        (if strTruthy s.currentAccessToken then s.currentAccessToken.map o.headerFormat
         else none).getD ""
      (s, .retryRequest { cfg with
        authTriedCurrent := true
        headers := some (setAuthHeader cfg.headers o.headerName formattedCurrent)
        sentAccessToken := s.currentAccessToken })
    else if cfg.authRefreshRetried then
      (s, .throwOriginal)
    else
      (s, .proceedToRefresh { cfg with authRefreshRetried := true })

/-- Tokens observed after `await getTokens()`: a storage rejection is
logged and leaves `storedTokens` at `null`. -/
def storedTokensOf : Except Nat (Option AuthTokens) → Option AuthTokens
  | .error _ => none
  | .ok t => t

/-- Result of the atomic segment between the `getTokens` settlement and
the settlement of the renewal promise: terminal auth loss, joining an
already-in-flight renewal with the queued promise, or having started (and
now awaiting) a renewal via `getOrStartRefresh`. -/
inductive Phase2Result
  | terminal (t : TerminalOut)
  | joined (opId : Nat)
  | startedRefresh (g : GetOrStartOut)
deriving DecidableEq, Repr

/-- Atomic segment of the interceptor after `await getTokens()` resolves
(a storage error is logged and leaves `storedTokens = null`): transition
to terminal auth loss when no truthy refresh token is stored; otherwise
queue the descriptor, join an in-flight renewal if one exists, transition
to terminal auth loss when the attempt counter has reached `maxRetries`,
and otherwise call `getOrStartRefresh` with the stored refresh token.
`newEid` identifies the freshly created queued continuation and
`freshOpId` the renewal promise if one is created. -/
def phase2 (o : Options) (s : RState) (cfg : Config) (err : Err)
    (getTokensResult : Except Nat (Option AuthTokens))
    (newEid freshOpId : Nat) (logoutResult : Except Nat Unit) :
    RState × Phase2Result :=
  let storedTokens : Option AuthTokens := storedTokensOf getTokensResult
  if !(strTruthy (storedTokens.bind AuthTokens.refreshToken)) then
    let t := terminalAuthLost o s err logoutResult
    (t.state, .terminal t)
  else
    let s1 := { s with
      refreshSubscribers := s.refreshSubscribers ++ [Entry.mk newEid cfg] }
    match s1.refreshInFlight with
    | some p => (s1, .joined p)
    | none =>
        if s1.refreshAttemptCount ≥ o.maxRetries then
          let t := terminalAuthLost o s1 err logoutResult
          (t.state, .terminal t)
        else
          let g := getOrStartRefresh s1
            ((storedTokens.bind AuthTokens.refreshToken).getD "") freshOpId
          (g.state, .startedRefresh g)

/-- Merge of `{ ...storedTokens, ...refreshed }`: a field present on the
renewal response overrides, a field absent from it is preserved from the
stored pair. -/
def mergeTokens (stored refreshed : AuthTokens) : AuthTokens :=
  { accessToken := refreshed.accessToken.orElse (fun _ => stored.accessToken)
    refreshToken := refreshed.refreshToken.orElse (fun _ => stored.refreshToken) }

/-- Observable output of the success branch of the interceptor's `try`
block: the new access token, the merged pair passed to `setTokens`,
whether `onRefreshed` was reached (it is skipped when `setTokens`
rejects), and the per-entry outcomes of `drainSuccess`. -/
structure SuccessOut where
  newAccessToken : String
  mergedTokens : AuthTokens
  onRefreshedCalled : Bool
  drainOutcomes : List EntryOutcome
deriving DecidableEq, Repr

/-- Result of the interceptor's resumption after the renewal promise
settles. -/
inductive Phase3Result
  | success (out : SuccessOut)
  | nonTerminalFailure (drained : List Entry) (thrown : Err)
  | terminal (t : TerminalOut)
deriving DecidableEq, Repr

/-- Catch block of the interceptor (lines 343–354): a refresh failure
classified terminal by `isRefreshFailureTerminal` goes through
`terminalAuthLost` (draining with that refresh error); otherwise the
queue is drained with the failure, `onRefreshFailed` is invoked and the
error bubbles up to the original caller. -/
def handleRefreshError (o : Options) (s : RState) (e : Err)
    (logoutResult : Except Nat Unit) : RState × Phase3Result :=
  if o.isRefreshFailureTerminal e then
    let t := terminalAuthLost o s e logoutResult
    (t.state, .terminal t)
  else
    let (s1, drained) := drainFailure s e
    (s1, .nonTerminalFailure drained e)

/-- Resumption of the interceptor after the renewal promise settles with
`outcome` (the `finally` inside the renewal wrapper has already cleared
the in-flight reference). On success: a falsy access token raises the
contract error into the catch block; otherwise the client default header
and the cached access token are updated, the merged pair is persisted (a
`setTokens` rejection is logged and swallowed, skipping `onRefreshed`),
the attempt counter is reset and the queue is drained with success. On
failure the catch block classifies and drains. -/
def phase3 (o : Options) (s : RState) (storedTokens : AuthTokens)
    (outcome : Except Err AuthTokens)
    (setTokensResult : Except Nat Unit) (logoutResult : Except Nat Unit) :
    RState × Phase3Result :=
  let s0 := { s with refreshInFlight := none }
  match outcome with
  | .error e => handleRefreshError o s0 e logoutResult
  | .ok refreshed =>
      if !(strTruthy refreshed.accessToken) then
        handleRefreshError o s0 .invalidRefreshResponse logoutResult
      else
        let newAccessToken := refreshed.accessToken.getD ""
        let s1 := { s0 with
          apiDefaults := setAuthHeaders s0.apiDefaults (some newAccessToken)
            o.headerName o.headerFormat
          currentAccessToken := some newAccessToken }
        let updatedTokens := mergeTokens storedTokens refreshed
        let onRefreshedCalled :=
          match setTokensResult with
          | .ok _ => true
          | .error _ => false
        let s2 := { s1 with refreshAttemptCount := 0 }
        let (s3, outs) := drainSuccess o s2 newAccessToken
        (s3, .success
          { newAccessToken := newAccessToken
            mergedTokens := updatedTokens
            onRefreshedCalled := onRefreshedCalled
            drainOutcomes := outs })

/-- Success response interceptor: any successful response resets the
attempt counter. -/
def respSuccessInterceptor (s : RState) : RState :=
  { s with refreshAttemptCount := 0 }

/-- Observable output of `uninstall`. -/
structure UninstallOut where
  state : RState
  drained : List Entry
  drainedWith : Err
  reqEjected : Bool
  respEjected : Bool
deriving DecidableEq, Repr

/-- `uninstall()`: eject both interceptors, drain any pending queue with
`CanceledError('auth refresher uninstalled')`, and clear the in-flight
renewal reference. -/
def uninstall (s : RState) : UninstallOut :=
  let cancelErr := Err.canceled "auth refresher uninstalled"
  let (s1, drained) :=
    if s.refreshSubscribers.length > 0 then drainFailure s cancelErr
    else (s, [])
  { state := { s1 with refreshInFlight := none }
    drained := drained
    drainedWith := cancelErr
    reqEjected := true
    respEjected := true }

/-! Helper observables used by the theorems. -/

/-- Whether a phase-1 result is the stale-token fast-path retry. -/
def isFastRetry : Phase1Result → Bool
  | .retryRequest _ => true
  | _ => false

/-- Whether a phase-1 result proceeds towards the renewal flow. -/
def isProceed : Phase1Result → Bool
  | .proceedToRefresh _ => true
  | _ => false

/-- Whether a phase-2 step started a new renewal network call. -/
def startedCall : Phase2Result → Bool
  | .startedRefresh g => g.startedNetworkCall
  | _ => false

/-- Entries settled (or re-dispatched) by a phase-3 result, in order. -/
def settledEntries : Phase3Result → List Entry
  | .success out => out.drainOutcomes.map (fun
      | .cancelled e => e
      | .resubmitted e => e)
  | .nonTerminalFailure drained _ => drained
  | .terminal t => t.drained

/-- The failure (entries, error) a phase-3 result delivers to the queued
continuations, if it is a failure. -/
def failureDelivered : Phase3Result → Option (List Entry × Err)
  | .terminal t => some (t.drained, t.thrown)
  | .nonTerminalFailure d e => some (d, e)
  | .success _ => none

/-- Run a batch of qualifying concurrent failures: each element carries
the descriptor (already through `phase1`), the fresh continuation id and
the fresh promise id for its atomic `phase2` step; steps execute in
sequence on the shared state, as the single-threaded runtime does. -/
def runQualified (o : Options) (stored : Option AuthTokens) (err : Err)
    (logoutResult : Except Nat Unit) :
    RState → List (Config × Nat × Nat) → RState × List Phase2Result
  | s, [] => (s, [])
  | s, (cfg, eid, opId) :: rest =>
      let (s1, r) := phase2 o s cfg err (.ok stored) eid opId logoutResult
      let (s2, rs) := runQualified o stored err logoutResult s1 rest
      (s2, r :: rs)

/-! Concrete fixtures used to instantiate the theorems. -/

/-- Sample options: source defaults with a status-401 session-expired
predicate and a never-terminal refresh-failure classifier. -/
def oSample : Options :=
  mkDefaultOptions (fun c => c.status == 401) (fun _ => false)

/-- Sample descriptor sent with access token `A1`. -/
def cfgSample : Config :=
  { skipAuthRefresh := false
    authRefreshRetried := false
    authTriedCurrent := false
    sentAccessToken := some "A1"
    headers := some (.maplike [("Authorization", "Bearer A1")])
    aborted := false
    url := some "/me" }

/-- Sample descriptor that already attempted renewal. -/
def cfgRetried : Config := { cfgSample with authRefreshRetried := true }

/-- Sample descriptor whose cancellation signal already fired. -/
def cfgAborted : Config := { cfgSample with aborted := true }

/-- Descriptor that already attempted renewal and was sent with the stale
token `old` while the cache now holds a different token. -/
def cfgStaleRetried : Config :=
  { cfgSample with
      authRefreshRetried := true
      sentAccessToken := some "old"
      headers := some (.maplike [("Authorization", "Bearer old")]) }

/-- Sample queued entry. -/
def entSample : Entry := Entry.mk 7 cfgRetried

/-- Orchestrator state with an empty queue and token `A1` cached. -/
def sEmpty : RState :=
  { refreshInFlight := none
    refreshSubscribers := []
    refreshAttemptCount := 0
    currentAccessToken := some "A1"
    apiDefaults := .maplike [("Authorization", "Bearer A1")] }

/-- Orchestrator state with one queued entry, two attempts used and a
plain-object default header bag. -/
def sQueued : RState :=
  { sEmpty with
      refreshSubscribers := [entSample]
      refreshAttemptCount := 2
      apiDefaults := .plain [("Authorization", "Bearer A1"),
        ("authorization", "Bearer A1")] }

/-- Orchestrator state whose cached token moved on to `new`. -/
def sNewToken : RState := { sEmpty with currentAccessToken := some "new" }

/-- Sample failed-request error: a 401 response. -/
def errSample : Err := .axios 0 (some 401)

/-- Sample stored credential pair. -/
def toksSample : AuthTokens := ⟨some "A1", some "R1"⟩

/-! Lemmas about the association-list header primitives. -/

lemma assocSet_cons_of_ne (p : String × String) (t : List (String × String))
    (k v : String) (hp : p.1 ≠ k) :
    assocSet (p :: t) k v = p :: assocSet t k v := by
  by_cases h : t.any (fun q => q.1 = k) <;>
    simp [assocSet, hp, h]

lemma assocGet_map_update_of_ne (t : List (String × String)) (k k' v : String)
    (hkk : k ≠ k') :
    assocGet (t.map (fun q => if q.1 = k' then (k', v) else q)) k = assocGet t k := by
  induction t with
  | nil => simp [assocGet]
  | cons q t ih =>
      by_cases hq : q.1 = k'
      · have hqk : ¬ q.1 = k := fun h => hkk (h.symm.trans hq)
        have hfq : (if q.1 = k' then ((k', v) : String × String) else q) = (k', v) :=
          if_pos hq
        simp only [assocGet, List.map_cons, hfq] at ih ⊢
        rw [List.find?_cons_of_neg _ (by simp [Ne.symm hkk]),
          List.find?_cons_of_neg _ (by simp [hqk])]
        exact ih
      · have hfq : (if q.1 = k' then ((k', v) : String × String) else q) = q :=
          if_neg hq
        simp only [assocGet, List.map_cons, hfq] at ih ⊢
        by_cases hqk : q.1 = k
        · rw [List.find?_cons_of_pos _ (by simp [hqk]),
            List.find?_cons_of_pos _ (by simp [hqk])]
        · rw [List.find?_cons_of_neg _ (by simp [hqk]),
            List.find?_cons_of_neg _ (by simp [hqk])]
          exact ih

lemma assocGet_assocSet_self (l : List (String × String)) (k v : String) :
    assocGet (assocSet l k v) k = some v := by
  induction l with
  | nil => simp [assocSet, assocGet]
  | cons p t ih =>
      by_cases hp : p.1 = k
      · simp [assocSet, assocGet, hp]
      · rw [assocSet_cons_of_ne p t k v hp]
        simpa [assocGet, hp] using ih

lemma assocGet_assocSet_of_ne (l : List (String × String)) (k k' v : String)
    (hkk : k ≠ k') :
    assocGet (assocSet l k' v) k = assocGet l k := by
  induction l with
  | nil => simp [assocSet, assocGet, Ne.symm hkk]
  | cons p t ih =>
      by_cases hp : p.1 = k'
      · have h1 : assocSet (p :: t) k' v =
            (p :: t).map (fun q => if q.1 = k' then (k', v) else q) := by
          simp [assocSet, hp]
        rw [h1, assocGet_map_update_of_ne _ _ _ _ hkk]
      · rw [assocSet_cons_of_ne p t k' v hp]
        by_cases hpk : p.1 = k
        · simp [assocGet, hpk]
        · simpa [assocGet, hpk] using ih

lemma assocGet_assocDelete_self (l : List (String × String)) (k : String) :
    assocGet (assocDelete l k) k = none := by
  induction l with
  | nil => simp [assocGet, assocDelete]
  | cons p t ih =>
      by_cases hp : p.1 = k <;>
        · simp only [assocGet, assocDelete] at ih ⊢
          simp [List.filter_cons, hp, ih]

lemma assocGet_assocDelete_of_ne (l : List (String × String)) (k k' : String)
    (hkk : k ≠ k') :
    assocGet (assocDelete l k') k = assocGet l k := by
  induction l with
  | nil => simp [assocGet, assocDelete]
  | cons p t ih =>
      simp only [assocGet, assocDelete, List.filter_cons] at ih ⊢
      by_cases hp : p.1 = k'
      · have hpk : ¬ p.1 = k := fun h => hkk (h.symm.trans hp)
        rw [if_neg (by simp [hp]), List.find?_cons_of_neg _ (by simp [hpk])]
        exact ih
      · rw [if_pos (by simp [hp])]
        by_cases hpk : p.1 = k
        · rw [List.find?_cons_of_pos _ (by simp [hpk]),
            List.find?_cons_of_pos _ (by simp [hpk])]
        · rw [List.find?_cons_of_neg _ (by simp [hpk]),
            List.find?_cons_of_neg _ (by simp [hpk])]
          exact ih

/-- Clearing the auth header via `setAuthHeaders(api, null, ...)` leaves the
header absent from the client's defaults, whichever bag shape they use. -/
lemma readHeaderBag_setAuthHeaders_clear (h : Headers) (name : String)
    (fmt : String → String) :
    readHeaderBag (setAuthHeaders h none name fmt) name = none := by
  cases h with
  | maplike es =>
      simp [readHeaderBag, readHeader, setAuthHeaders, strTruthy,
        assocGet_assocDelete_self]
  | plain es =>
      by_cases hlow : name.toLower = name
      · simp [readHeaderBag, readHeader, setAuthHeaders, strTruthy, hlow,
          assocGet_assocDelete_self, Option.orElse]
      · have h1 : assocGet (assocDelete (assocDelete es name) name.toLower) name
            = none := by
          rw [assocGet_assocDelete_of_ne _ _ _ (fun h => hlow h.symm)]
          exact assocGet_assocDelete_self es name
        simp [readHeaderBag, readHeader, setAuthHeaders, strTruthy, h1,
          assocGet_assocDelete_self, Option.orElse]

/-- Setting the auth header via `setAuthHeaders(api, token, ...)` for a truthy
token makes the formatted token readable from the client's defaults,
whichever bag shape they use. -/
lemma readHeaderBag_setAuthHeaders_set (h : Headers) (t name : String)
    (fmt : String → String) (ht : t ≠ "") :
    readHeaderBag (setAuthHeaders h (some t) name fmt) name = some (fmt t) := by
  cases h with
  | maplike es =>
      simp [readHeaderBag, readHeader, setAuthHeaders, strTruthy, ht,
        assocGet_assocSet_self]
  | plain es =>
      by_cases hlow : name.toLower = name
      · simp [readHeaderBag, readHeader, setAuthHeaders, strTruthy, ht, hlow,
          assocGet_assocSet_self, Option.orElse]
      · have h1 : assocGet (assocSet (assocSet es name (fmt t)) name.toLower (fmt t))
            name = some (fmt t) := by
          rw [assocGet_assocSet_of_ne _ _ _ _ (fun h => hlow h.symm)]
          exact assocGet_assocSet_self es name (fmt t)
        simp [readHeaderBag, readHeader, setAuthHeaders, strTruthy, ht, h1,
          Option.orElse]

/-- Reading back the header written by the config-level `setAuthHeader`. -/
lemma readHeader_setAuthHeader (h : Option Headers) (name v : String) :
    readHeader (some (setAuthHeader h name v)) name = some v := by
  cases h with
  | none => simp [readHeader, setAuthHeader, assocGet, Option.orElse]
  | some bag =>
      cases bag with
      | maplike es => simp [readHeader, setAuthHeader, assocGet_assocSet_self]
      | plain es =>
          simp [readHeader, setAuthHeader, assocGet_assocSet_self, Option.orElse]


/-! Claim theorems. -/

/-- Claim C3: whenever terminal auth loss is entered (including a
qualifying failure for which storage holds no renewal credential), the
attempt counter is reset to zero, the cached access credential is
cleared, every previously queued entry's failure continuation is invoked
exactly once with the triggering error, the failure callback is invoked,
the credential header is removed from the client's defaults, the external
logout collaborator is invoked best-effort with its own failure swallowed
(the output does not depend on the logout result), and the triggering
error is re-thrown to the original caller. -/
theorem c3_terminal_auth_loss (o : Options) (s : RState) (err : Err)
    (lr : Except Nat Unit) (hl : o.hasLogout = true) :
    (terminalAuthLost o s err lr).state.refreshAttemptCount = 0 ∧
    (terminalAuthLost o s err lr).state.currentAccessToken = none ∧
    (terminalAuthLost o s err lr).drained = s.refreshSubscribers ∧
    (∀ ent : Entry, (terminalAuthLost o s err lr).drained.count ent =
      s.refreshSubscribers.count ent) ∧
    (terminalAuthLost o s err lr).state.refreshSubscribers = [] ∧
    (terminalAuthLost o s err lr).onRefreshFailedCalled = true ∧
    readHeaderBag (terminalAuthLost o s err lr).state.apiDefaults o.headerName
      = none ∧
    (terminalAuthLost o s err lr).logoutCalled = true ∧
    (∀ lr2 : Except Nat Unit, terminalAuthLost o s err lr2 =
      terminalAuthLost o s err lr) ∧
    (terminalAuthLost o s err lr).thrown = err ∧
    (∀ (cfg : Config) (gtk : Except Nat (Option AuthTokens)) (eid f : Nat),
      strTruthy ((storedTokensOf gtk).bind AuthTokens.refreshToken) = false →
      phase2 o s cfg err gtk eid f lr =
        ((terminalAuthLost o s err lr).state,
         Phase2Result.terminal (terminalAuthLost o s err lr))) := by
  refine ⟨rfl, rfl, rfl, fun ent => rfl, rfl, rfl, ?_, ?_, fun lr2 => rfl, rfl, ?_⟩
  · exact readHeaderBag_setAuthHeaders_clear s.apiDefaults o.headerName o.headerFormat
  · simpa [terminalAuthLost] using hl
  · intro cfg gtk eid f h
    simp [phase2, h]

/-- Witness for C3 at a queued state with a plain-object default header
bag, a 401 triggering error, and storage reporting no credential pair. -/
theorem c3_terminal_auth_loss_witness :
    oSample.hasLogout = true ∧
    ((terminalAuthLost oSample sQueued errSample (Except.ok ())).state.refreshAttemptCount
        = 0 ∧
      (terminalAuthLost oSample sQueued errSample (Except.ok ())).drained =
        [entSample] ∧
      readHeaderBag (terminalAuthLost oSample sQueued errSample
          (Except.ok ())).state.apiDefaults oSample.headerName = none ∧
      phase2 oSample sQueued cfgRetried errSample (Except.ok none) 8 1
          (Except.ok ()) =
        ((terminalAuthLost oSample sQueued errSample (Except.ok ())).state,
         Phase2Result.terminal
           (terminalAuthLost oSample sQueued errSample (Except.ok ())))) := by
  have h := c3_terminal_auth_loss oSample sQueued errSample (Except.ok ()) rfl
  exact ⟨rfl, h.1, h.2.2.1, h.2.2.2.2.2.2.1,
    h.2.2.2.2.2.2.2.2.2.2 cfgRetried (Except.ok none) 8 1 (by decide)⟩

/-- Claim C9: `uninstall()` ejects both interceptors, settles every
pending queue entry with a cancellation-flavored error (each continuation
invoked exactly once, by draining the whole queue), and clears the
in-flight renewal reference, leaving an empty queue and no dangling
in-flight reference. -/
theorem c9_uninstall (s : RState) :
    (uninstall s).state.refreshSubscribers = [] ∧
    (uninstall s).state.refreshInFlight = none ∧
    (uninstall s).drained = s.refreshSubscribers ∧
    (∀ ent : Entry, (uninstall s).drained.count ent =
      s.refreshSubscribers.count ent) ∧
    (uninstall s).drainedWith = Err.canceled "auth refresher uninstalled" ∧
    (uninstall s).reqEjected = true ∧
    (uninstall s).respEjected = true := by
  cases h : s.refreshSubscribers with
  | nil => simp [uninstall, drainFailure, h]
  | cons a t => simp [uninstall, drainFailure, h]

/-- Claim C8 (counterexample): `drainSuccess` does not update either
boolean retry marker of a queued descriptor — on a concrete entry whose
markers are both unset, the re-submitted descriptor still has both unset;
only the recorded sent-token marker changes to the new token. -/
theorem c8_counterexample :
    ((drainSuccess oSample
        { sEmpty with
            refreshInFlight := some 0
            refreshSubscribers := [Entry.mk 1 cfgSample]
            currentAccessToken := some "T2" } "T2").2.map
      (fun oc => match oc with
        | .cancelled e =>
            (e.config.authRefreshRetried, e.config.authTriedCurrent,
              e.config.sentAccessToken)
        | .resubmitted e =>
            (e.config.authRefreshRetried, e.config.authTriedCurrent,
              e.config.sentAccessToken)))
      = [(false, false, some "T2")] := by
  decide

/-- Claim C8 (amended): `drainSuccess(newAccessValue)` rejects each
already-cancelled entry with a cancellation error, and otherwise rewrites
the outgoing header to the new formatted credential, updates the recorded
sent-token marker to the new credential (the boolean retry markers are
left unchanged) and re-submits the request; `drainFailure(error)` rejects
every pending entry with that same error; after either drain the queue is
empty. -/
theorem c8_drain_amended (o : Options) (s : RState) (tok : String) (err : Err) :
    (drainSuccess o s tok).1.refreshSubscribers = [] ∧
    (drainSuccess o s tok).2 =
      s.refreshSubscribers.map (drainSuccessEntry o tok) ∧
    (∀ ent : Entry, ent.config.aborted = true →
      drainSuccessEntry o tok ent = .cancelled ent) ∧
    (∀ ent : Entry, ent.config.aborted = false →
      ∃ e2 : Entry, drainSuccessEntry o tok ent = .resubmitted e2 ∧
        readHeader e2.config.headers o.headerName = some (o.headerFormat tok) ∧
        e2.config.sentAccessToken = some tok ∧
        e2.config.authRefreshRetried = ent.config.authRefreshRetried ∧
        e2.config.authTriedCurrent = ent.config.authTriedCurrent ∧
        e2.eid = ent.eid) ∧
    (drainFailure s err).1.refreshSubscribers = [] ∧
    (drainFailure s err).2 = s.refreshSubscribers := by
  refine ⟨rfl, rfl, ?_, ?_, rfl, rfl⟩
  · intro ent h
    simp [drainSuccessEntry, h]
  · intro ent h
    refine ⟨{ ent with config := { ent.config with
        headers := some (setAuthHeader ent.config.headers o.headerName
          (o.headerFormat tok))
        sentAccessToken := some tok } }, by simp [drainSuccessEntry, h], ?_,
      rfl, rfl, rfl, rfl⟩
    exact readHeader_setAuthHeader ent.config.headers o.headerName (o.headerFormat tok)

/-- Witness for C8's amended theorem at a queue holding one cancelled and
one live entry. -/
theorem c8_drain_amended_witness :
    cfgAborted.aborted = true ∧ cfgSample.aborted = false ∧
    ((drainSuccess oSample
        { sEmpty with refreshSubscribers := [Entry.mk 1 cfgAborted,
            Entry.mk 2 cfgSample] } "T2").1.refreshSubscribers = [] ∧
      drainSuccessEntry oSample "T2" (Entry.mk 1 cfgAborted) =
        .cancelled (Entry.mk 1 cfgAborted) ∧
      (drainFailure
        { sEmpty with refreshSubscribers := [Entry.mk 1 cfgAborted,
            Entry.mk 2 cfgSample] } Err.refreshTimeout).2 =
        [Entry.mk 1 cfgAborted, Entry.mk 2 cfgSample]) := by
  have h := c8_drain_amended oSample
    { sEmpty with refreshSubscribers := [Entry.mk 1 cfgAborted,
        Entry.mk 2 cfgSample] } "T2" Err.refreshTimeout
  exact ⟨by decide, by decide,
    h.1, h.2.2.1 (Entry.mk 1 cfgAborted) (by decide), h.2.2.2.2.2⟩

/-- A descriptor that already retried with the current token can never take
the stale-token fast path again. -/
lemma fastPathCond_false_of_triedCurrent (o : Options) (s : RState) (cfg : Config)
    (b : Bool) (h : cfg.authTriedCurrent = true) :
    fastPathCond o s cfg b = false := by
  simp [fastPathCond, h]

/-- Truthiness of the cached token is necessary for the fast path. -/
lemma fastPathCond_truthy (o : Options) (s : RState) (cfg : Config) (b : Bool)
    (h : fastPathCond o s cfg b = true) :
    strTruthy s.currentAccessToken = true := by
  cases hco : strTruthy s.currentAccessToken with
  | true => rfl
  | false => simp [fastPathCond, hco] at h

/-- The interceptor head never takes the fast path for a descriptor whose
retried-with-current marker is set. -/
lemma phase1_no_retry_of_triedCurrent (o : Options) (s : RState) (cfg : Config)
    (err : Err) (h : cfg.authTriedCurrent = true) :
    isFastRetry (phase1 o s cfg err).2 = false := by
  have hf := fastPathCond_false_of_triedCurrent o s cfg true h
  by_cases h1 : cfg.skipAuthRefresh
  · simp [phase1, h1, isFastRetry]
  · by_cases h2 : o.isSessionExpired { status := errStatus err, error := err } = true
    · by_cases h3 : cfg.authRefreshRetried
      · simp [phase1, h1, h2, hf, h3, isFastRetry]
      · simp [phase1, h1, h2, hf, h3, isFastRetry]
    · simp [phase1, h1, h2, isFastRetry]

/-- Claim C4: when the session-expired predicate is true, a truthy cached
access credential exists, the retried-with-current marker is unset, and
the sent credential differs from the cached one (via the sent-token
marker, or by comparing the sent header value against the formatted
current credential — the condition `fastPathCond`), the interceptor
retries the request exactly once with the current credential (header
rewritten, no renewal started, state untouched) and sets the
retried-with-current marker, so the fast path cannot recurse for that
descriptor. -/
theorem c4_stale_fast_path (o : Options) (s : RState) (cfg : Config) (err : Err)
    (hskip : cfg.skipAuthRefresh = false)
    (hexp : o.isSessionExpired { status := errStatus err, error := err } = true)
    (hfast : fastPathCond o s cfg true = true) :
    ∃ c : String, s.currentAccessToken = some c ∧ c ≠ "" ∧
      phase1 o s cfg err = (s, Phase1Result.retryRequest { cfg with
        authTriedCurrent := true
        headers := some (setAuthHeader cfg.headers o.headerName (o.headerFormat c))
        sentAccessToken := some c }) ∧
      readHeader (some (setAuthHeader cfg.headers o.headerName (o.headerFormat c)))
        o.headerName = some (o.headerFormat c) ∧
      (∀ (s2 : RState) (err2 : Err),
        isFastRetry (phase1 o s2 { cfg with
          authTriedCurrent := true
          headers := some (setAuthHeader cfg.headers o.headerName (o.headerFormat c))
          sentAccessToken := some c } err2).2 = false) := by
  have htr := fastPathCond_truthy o s cfg true hfast
  cases hcur : s.currentAccessToken with
  | none => rw [hcur] at htr; simp [strTruthy] at htr
  | some c =>
      have hcne : c ≠ "" := by
        rw [hcur] at htr
        simpa [strTruthy] using htr
      refine ⟨c, rfl, hcne, ?_, ?_, ?_⟩
      · simp [phase1, hskip, hexp, hfast, hcur, strTruthy, hcne]
      · exact readHeader_setAuthHeader cfg.headers o.headerName (o.headerFormat c)
      · intro s2 err2
        exact phase1_no_retry_of_triedCurrent o s2 _ err2 rfl

/-- Witness for C4: the cache moved on to token `new` while the request
went out with `old`; the fast path rewrites and retries it. -/
theorem c4_stale_fast_path_witness :
    cfgStaleRetried.skipAuthRefresh = false ∧
    oSample.isSessionExpired { status := errStatus errSample, error := errSample }
      = true ∧
    fastPathCond oSample sNewToken cfgStaleRetried true = true ∧
    (∃ c : String, sNewToken.currentAccessToken = some c ∧ c ≠ "" ∧
      phase1 oSample sNewToken cfgStaleRetried errSample =
        (sNewToken, Phase1Result.retryRequest { cfgStaleRetried with
          authTriedCurrent := true
          headers := some (setAuthHeader cfgStaleRetried.headers oSample.headerName
            (oSample.headerFormat c))
          sentAccessToken := some c }) ∧
      readHeader (some (setAuthHeader cfgStaleRetried.headers oSample.headerName
          (oSample.headerFormat c))) oSample.headerName
        = some (oSample.headerFormat c) ∧
      (∀ (s2 : RState) (err2 : Err),
        isFastRetry (phase1 oSample s2 { cfgStaleRetried with
          authTriedCurrent := true
          headers := some (setAuthHeader cfgStaleRetried.headers oSample.headerName
            (oSample.headerFormat c))
          sentAccessToken := some c } err2).2 = false)) := by
  exact ⟨by decide, by decide, by decide,
    c4_stale_fast_path oSample sNewToken cfgStaleRetried errSample
      (by decide) (by decide) (by decide)⟩

/-- Claim C5 (counterexample): a descriptor whose renewal-attempted marker
is set does not always propagate a qualifying failure unchanged — when the
cached token moved on after its renewal, the stale-token fast path (checked
before the per-request loop guard) retries it instead of re-throwing. -/
theorem c5_counterexample :
    cfgStaleRetried.authRefreshRetried = true ∧
    isFastRetry (phase1 oSample sNewToken cfgStaleRetried errSample).2 = true ∧
    (phase1 oSample sNewToken cfgStaleRetried errSample).2 ≠
      Phase1Result.throwOriginal := by
  exact ⟨by decide, by decide, by decide⟩

/-- Claim C5 (amended): for a descriptor whose renewal-attempted marker is
set, a qualifying failure is propagated unchanged provided the
stale-credential fast path does not apply; and in every case such a
descriptor can never reach the renewal flow again (no second renewal is
triggered on its behalf), independently of the global single-flight
guard. -/
theorem c5_amended_loop_guard (o : Options) (s : RState) (cfg : Config) (err : Err)
    (hretried : cfg.authRefreshRetried = true)
    (hskip : cfg.skipAuthRefresh = false)
    (hexp : o.isSessionExpired { status := errStatus err, error := err } = true)
    (hnofast : fastPathCond o s cfg true = false) :
    phase1 o s cfg err = (s, Phase1Result.throwOriginal) ∧
    (∀ (s2 : RState) (err2 : Err), isProceed (phase1 o s2 cfg err2).2 = false) := by
  constructor
  · simp [phase1, hskip, hexp, hnofast, hretried]
  · intro s2 err2
    by_cases h1 : o.isSessionExpired { status := errStatus err2, error := err2 } = true
    · by_cases h2 : fastPathCond o s2 cfg true = true
      · simp [phase1, hskip, h1, h2, isProceed]
      · simp [phase1, hskip, h1, h2, hretried, isProceed]
    · simp [phase1, hskip, h1, isProceed]

/-- Witness for C5's amended theorem: the marker-set descriptor was sent
with the token the cache still holds, so the fast path does not apply and
the failure is re-thrown unchanged. -/
theorem c5_amended_loop_guard_witness :
    cfgRetried.authRefreshRetried = true ∧
    cfgRetried.skipAuthRefresh = false ∧
    oSample.isSessionExpired { status := errStatus errSample, error := errSample }
      = true ∧
    fastPathCond oSample sEmpty cfgRetried true = false ∧
    (phase1 oSample sEmpty cfgRetried errSample =
        (sEmpty, Phase1Result.throwOriginal) ∧
      (∀ (s2 : RState) (err2 : Err),
        isProceed (phase1 oSample s2 cfgRetried err2).2 = false)) := by
  exact ⟨by decide, by decide, by decide, by decide,
    c5_amended_loop_guard oSample sEmpty cfgRetried errSample
      (by decide) (by decide) (by decide) (by decide)⟩

/-- Claim C2: for a qualifying failure handled while no renewal is in
flight, if the attempt counter has already reached the configured ceiling
`maxRetries`, the step transitions directly to terminal auth loss (with
the just-queued descriptor drained along with the rest of the queue) and
no renewal call is started — the in-flight reference stays clear. -/
theorem c2_max_retries_terminal (o : Options) (s : RState) (cfg : Config)
    (err : Err) (gtk : Except Nat (Option AuthTokens)) (eid f : Nat)
    (lr : Except Nat Unit)
    (hin : s.refreshInFlight = none)
    (hstored : strTruthy ((storedTokensOf gtk).bind AuthTokens.refreshToken) = true)
    (hcap : o.maxRetries ≤ s.refreshAttemptCount) :
    phase2 o s cfg err gtk eid f lr =
      ((terminalAuthLost o { s with refreshSubscribers :=
          s.refreshSubscribers ++ [Entry.mk eid cfg] } err lr).state,
       Phase2Result.terminal (terminalAuthLost o { s with refreshSubscribers :=
          s.refreshSubscribers ++ [Entry.mk eid cfg] } err lr)) ∧
    startedCall (phase2 o s cfg err gtk eid f lr).2 = false ∧
    (phase2 o s cfg err gtk eid f lr).1.refreshInFlight = none := by
  have h1 : phase2 o s cfg err gtk eid f lr =
      ((terminalAuthLost o { s with refreshSubscribers :=
          s.refreshSubscribers ++ [Entry.mk eid cfg] } err lr).state,
       Phase2Result.terminal (terminalAuthLost o { s with refreshSubscribers :=
          s.refreshSubscribers ++ [Entry.mk eid cfg] } err lr)) := by
    simp [phase2, hstored, hin, hcap, ge_iff_le]
  refine ⟨h1, ?_, ?_⟩
  · rw [h1]
    simp [startedCall]
  · rw [h1]
    simp [terminalAuthLost, drainFailure, hin]

/-- Witness for C2: the default ceiling of 3 attempts is already reached,
the stored pair still has a refresh token, no renewal is in flight. -/
theorem c2_max_retries_terminal_witness :
    ({ sQueued with refreshAttemptCount := 3 } : RState).refreshInFlight = none ∧
    strTruthy ((storedTokensOf (Except.ok (some toksSample))).bind
      AuthTokens.refreshToken) = true ∧
    oSample.maxRetries ≤ ({ sQueued with refreshAttemptCount := 3 } : RState).refreshAttemptCount ∧
    (phase2 oSample { sQueued with refreshAttemptCount := 3 } cfgSample errSample
        (Except.ok (some toksSample)) 8 1 (Except.ok ()) =
      ((terminalAuthLost oSample { ({ sQueued with refreshAttemptCount := 3 } : RState) with
          refreshSubscribers := ({ sQueued with refreshAttemptCount := 3 } : RState).refreshSubscribers
            ++ [Entry.mk 8 cfgSample] } errSample (Except.ok ())).state,
       Phase2Result.terminal (terminalAuthLost oSample
         { ({ sQueued with refreshAttemptCount := 3 } : RState) with
          refreshSubscribers := ({ sQueued with refreshAttemptCount := 3 } : RState).refreshSubscribers
            ++ [Entry.mk 8 cfgSample] } errSample (Except.ok ()))) ∧
      startedCall (phase2 oSample { sQueued with refreshAttemptCount := 3 } cfgSample
        errSample (Except.ok (some toksSample)) 8 1 (Except.ok ())).2 = false ∧
      (phase2 oSample { sQueued with refreshAttemptCount := 3 } cfgSample errSample
        (Except.ok (some toksSample)) 8 1 (Except.ok ())).1.refreshInFlight = none) := by
  exact ⟨by decide, by decide, by decide,
    c2_max_retries_terminal oSample { sQueued with refreshAttemptCount := 3 }
      cfgSample errSample (Except.ok (some toksSample)) 8 1 (Except.ok ())
      (by decide) (by decide) (by decide)⟩

/-- Claim C6: on a successful renewal, a pair without a usable access
credential raises the contract error into the failure path; otherwise the
client's default header and the cached access credential are updated to
the new token, the new pair is merged over the stored pair (fields the
renewal response omitted, notably an unrotated renewal credential, are
preserved) and passed to storage, the success callback is notified (when
persisting succeeds), the attempt counter is reset to zero, and the queue
is drained with success; e.g. merging `{access := A2}` over
`{access := A1, refresh := R1}` yields `{access := A2, refresh := R1}`. -/
theorem c6_refresh_success (o : Options) (s : RState) (stored refreshed : AuthTokens)
    (loRes : Except Nat Unit)
    (husable : strTruthy refreshed.accessToken = true) :
    (∀ (bad : AuthTokens) (stRes loRes2 : Except Nat Unit),
      strTruthy bad.accessToken = false →
      phase3 o s stored (.ok bad) stRes loRes2 =
        handleRefreshError o { s with refreshInFlight := none }
          Err.invalidRefreshResponse loRes2) ∧
    readHeaderBag (phase3 o s stored (.ok refreshed) (.ok ()) loRes).1.apiDefaults
      o.headerName = some (o.headerFormat (refreshed.accessToken.getD "")) ∧
    (phase3 o s stored (.ok refreshed) (.ok ()) loRes).1.currentAccessToken
      = refreshed.accessToken ∧
    (phase3 o s stored (.ok refreshed) (.ok ()) loRes).1.refreshAttemptCount = 0 ∧
    (phase3 o s stored (.ok refreshed) (.ok ()) loRes).1.refreshSubscribers = [] ∧
    (phase3 o s stored (.ok refreshed) (.ok ()) loRes).1.refreshInFlight = none ∧
    (phase3 o s stored (.ok refreshed) (.ok ()) loRes).2 = Phase3Result.success
      { newAccessToken := refreshed.accessToken.getD ""
        mergedTokens := mergeTokens stored refreshed
        onRefreshedCalled := true
        drainOutcomes := s.refreshSubscribers.map
          (drainSuccessEntry o (refreshed.accessToken.getD "")) } ∧
    mergeTokens ⟨some "A1", some "R1"⟩ ⟨some "A2", none⟩
      = ⟨some "A2", some "R1"⟩ := by
  cases hac : refreshed.accessToken with
  | none => rw [hac] at husable; simp [strTruthy] at husable
  | some c =>
      have hcne : c ≠ "" := by
        rw [hac] at husable
        simpa [strTruthy] using husable
      refine ⟨?_, ?_, ?_, ?_, ?_, ?_, ?_, by decide⟩
      · intro bad stRes loRes2 hbad
        simp [phase3, hbad]
      · have hr := readHeaderBag_setAuthHeaders_set s.apiDefaults c o.headerName
          o.headerFormat hcne
        simpa [phase3, drainSuccess, husable, hac, strTruthy, hcne] using hr
      · simp [phase3, drainSuccess, husable, hac, strTruthy, hcne]
      · simp [phase3, drainSuccess, husable, hac, strTruthy, hcne]
      · simp [phase3, drainSuccess, husable, hac, strTruthy, hcne]
      · simp [phase3, drainSuccess, husable, hac, strTruthy, hcne]
      · simp [phase3, drainSuccess, husable, hac, strTruthy, hcne]

/-- Witness for C6 on the spec scenario: stored pair `{A1, R1}`, renewal
resolving `{access := A2}` with the refresh credential omitted. -/
theorem c6_refresh_success_witness :
    strTruthy (AuthTokens.mk (some "A2") none).accessToken = true ∧
    (readHeaderBag (phase3 oSample sQueued toksSample
        (.ok (AuthTokens.mk (some "A2") none)) (.ok ()) (.ok ())).1.apiDefaults
      oSample.headerName
        = some (oSample.headerFormat ((AuthTokens.mk (some "A2") none).accessToken.getD "")) ∧
      (phase3 oSample sQueued toksSample (.ok (AuthTokens.mk (some "A2") none))
        (.ok ()) (.ok ())).1.currentAccessToken
        = (AuthTokens.mk (some "A2") none).accessToken ∧
      (phase3 oSample sQueued toksSample (.ok (AuthTokens.mk (some "A2") none))
        (.ok ()) (.ok ())).1.refreshAttemptCount = 0 ∧
      (phase3 oSample sQueued toksSample (.ok (AuthTokens.mk (some "A2") none))
        (.ok ()) (.ok ())).2 = Phase3Result.success
        { newAccessToken := (AuthTokens.mk (some "A2") none).accessToken.getD ""
          mergedTokens := mergeTokens toksSample (AuthTokens.mk (some "A2") none)
          onRefreshedCalled := true
          drainOutcomes := sQueued.refreshSubscribers.map
            (drainSuccessEntry oSample
              ((AuthTokens.mk (some "A2") none).accessToken.getD "")) } ∧
      mergeTokens ⟨some "A1", some "R1"⟩ ⟨some "A2", none⟩
        = ⟨some "A2", some "R1"⟩) := by
  have h := c6_refresh_success oSample sQueued toksSample
    (AuthTokens.mk (some "A2") none) (.ok ()) (by decide)
  exact ⟨by decide, h.2.1, h.2.2.1, h.2.2.2.1, h.2.2.2.2.2.2.1, h.2.2.2.2.2.2.2⟩

/-- Claim C10: when persisting the merged pair fails after a successful
renewal with a usable access credential, the error is swallowed — the step
still completes as a success, the success callback is skipped, yet the
cached access credential and the client's default header are updated to
the new token, the attempt counter is reset to zero and the queue is
drained with success; the outcome does not depend on which storage error
occurred. -/
theorem c10_storage_failure_swallowed (o : Options) (s : RState)
    (stored refreshed : AuthTokens) (k : Nat) (loRes : Except Nat Unit)
    (husable : strTruthy refreshed.accessToken = true) :
    (phase3 o s stored (.ok refreshed) (.error k) loRes).2 = Phase3Result.success
      { newAccessToken := refreshed.accessToken.getD ""
        mergedTokens := mergeTokens stored refreshed
        onRefreshedCalled := false
        drainOutcomes := s.refreshSubscribers.map
          (drainSuccessEntry o (refreshed.accessToken.getD "")) } ∧
    (phase3 o s stored (.ok refreshed) (.error k) loRes).1.currentAccessToken
      = refreshed.accessToken ∧
    readHeaderBag (phase3 o s stored (.ok refreshed) (.error k) loRes).1.apiDefaults
      o.headerName = some (o.headerFormat (refreshed.accessToken.getD "")) ∧
    (phase3 o s stored (.ok refreshed) (.error k) loRes).1.refreshAttemptCount = 0 ∧
    (phase3 o s stored (.ok refreshed) (.error k) loRes).1.refreshSubscribers = [] ∧
    (∀ k2 : Nat, phase3 o s stored (.ok refreshed) (.error k2) loRes =
      phase3 o s stored (.ok refreshed) (.error k) loRes) := by
  cases hac : refreshed.accessToken with
  | none => rw [hac] at husable; simp [strTruthy] at husable
  | some c =>
      have hcne : c ≠ "" := by
        rw [hac] at husable
        simpa [strTruthy] using husable
      refine ⟨?_, ?_, ?_, ?_, ?_, fun k2 => rfl⟩
      · simp [phase3, drainSuccess, husable, hac, strTruthy, hcne]
      · simp [phase3, drainSuccess, husable, hac, strTruthy, hcne]
      · have hr := readHeaderBag_setAuthHeaders_set s.apiDefaults c o.headerName
          o.headerFormat hcne
        simpa [phase3, drainSuccess, husable, hac, strTruthy, hcne] using hr
      · simp [phase3, drainSuccess, husable, hac, strTruthy, hcne]
      · simp [phase3, drainSuccess, husable, hac, strTruthy, hcne]

/-- Witness for C10: storage rejects while persisting `{A2, R1}`; the
success drain still happens and `onRefreshed` is skipped. -/
theorem c10_storage_failure_swallowed_witness :
    strTruthy (AuthTokens.mk (some "A2") none).accessToken = true ∧
    ((phase3 oSample sQueued toksSample (.ok (AuthTokens.mk (some "A2") none))
        (.error 5) (.ok ())).2 = Phase3Result.success
      { newAccessToken := (AuthTokens.mk (some "A2") none).accessToken.getD ""
        mergedTokens := mergeTokens toksSample (AuthTokens.mk (some "A2") none)
        onRefreshedCalled := false
        drainOutcomes := sQueued.refreshSubscribers.map
          (drainSuccessEntry oSample
            ((AuthTokens.mk (some "A2") none).accessToken.getD "")) } ∧
      (phase3 oSample sQueued toksSample (.ok (AuthTokens.mk (some "A2") none))
        (.error 5) (.ok ())).1.currentAccessToken
        = (AuthTokens.mk (some "A2") none).accessToken ∧
      (phase3 oSample sQueued toksSample (.ok (AuthTokens.mk (some "A2") none))
        (.error 5) (.ok ())).1.refreshAttemptCount = 0) := by
  have h := c10_storage_failure_swallowed oSample sQueued toksSample
    (AuthTokens.mk (some "A2") none) 5 (.ok ()) (by decide)
  exact ⟨by decide, h.1, h.2.1, h.2.2.2.1⟩

/-- Claim C7: every started renewal is wrapped with the configurable
timeout; a renewal that does not settle within the window rejects with
the distinguished timeout error instead of hanging, that error is
delivered to all queued continuations (whether or not the failure is
classified terminal), the attempt counter was incremented by exactly 1
for the attempt, and the in-flight reference is cleared on settlement so
a subsequent failure can start a fresh attempt. -/
theorem c7_refresh_timeout (o : Options) (s : RState) (tok : String) (f : Nat)
    (settleTime : Option Nat) (res : Except Err AuthTokens)
    (hin : s.refreshInFlight = none)
    (hlate : ∀ t : Nat, settleTime = some t → o.refreshTimeout ≤ t) :
    withTimeout o.refreshTimeout settleTime res = .error .refreshTimeout ∧
    (getOrStartRefresh s tok f).startedNetworkCall = true ∧
    (getOrStartRefresh s tok f).calledOnBeforeRefresh = true ∧
    (getOrStartRefresh s tok f).state.refreshAttemptCount
      = s.refreshAttemptCount + 1 ∧
    (getOrStartRefresh s tok f).state.refreshInFlight = some f ∧
    (∀ (storedT : AuthTokens) (stRes loRes : Except Nat Unit),
      (phase3 o (getOrStartRefresh s tok f).state storedT
        (.error .refreshTimeout) stRes loRes).1.refreshInFlight = none ∧
      failureDelivered (phase3 o (getOrStartRefresh s tok f).state storedT
        (.error .refreshTimeout) stRes loRes).2 =
        some ((getOrStartRefresh s tok f).state.refreshSubscribers,
          Err.refreshTimeout)) := by
  refine ⟨?_, ?_, ?_, ?_, ?_, ?_⟩
  · cases settleTime with
    | none => rfl
    | some t =>
        have ht := hlate t rfl
        simp [withTimeout, Nat.not_lt.mpr ht]
  · simp [getOrStartRefresh, hin]
  · simp [getOrStartRefresh, hin]
  · simp [getOrStartRefresh, hin]
  · simp [getOrStartRefresh, hin]
  · intro storedT stRes loRes
    constructor
    · by_cases ht : o.isRefreshFailureTerminal .refreshTimeout
      · simp [phase3, handleRefreshError, ht, terminalAuthLost, drainFailure]
      · simp [phase3, handleRefreshError, ht, drainFailure]
    · by_cases ht : o.isRefreshFailureTerminal .refreshTimeout
      · simp [phase3, handleRefreshError, ht, terminalAuthLost, drainFailure,
          failureDelivered]
      · simp [phase3, handleRefreshError, ht, drainFailure, failureDelivered]

/-- Witness for C7 with `refreshTimeout = 50` and a renewal that never
settles, starting from a state with one queued entry. -/
theorem c7_refresh_timeout_witness :
    sQueued.refreshInFlight = none ∧
    (withTimeout ({ oSample with refreshTimeout := 50 } : Options).refreshTimeout
        none (.ok toksSample) = .error .refreshTimeout ∧
      (getOrStartRefresh sQueued "R1" 9).startedNetworkCall = true ∧
      (getOrStartRefresh sQueued "R1" 9).state.refreshAttemptCount
        = sQueued.refreshAttemptCount + 1 ∧
      failureDelivered (phase3 { oSample with refreshTimeout := 50 }
        (getOrStartRefresh sQueued "R1" 9).state toksSample
        (.error .refreshTimeout) (.ok ()) (.ok ())).2 =
        some ((getOrStartRefresh sQueued "R1" 9).state.refreshSubscribers,
          Err.refreshTimeout)) := by
  have h := c7_refresh_timeout { oSample with refreshTimeout := 50 } sQueued
    "R1" 9 none (.ok toksSample) (by decide) (fun t ht => nomatch ht)
  exact ⟨by decide, h.1, h.2.1, h.2.2.2.1,
    (h.2.2.2.2.2 toksSample (.ok ()) (.ok ())).2⟩

/-- Joining an in-flight renewal from the atomic post-`getTokens` segment:
the descriptor is queued and the step returns the existing pending
outcome, with no state change beyond the queue. -/
lemma phase2_join (o : Options) (s : RState) (cfg : Config) (err : Err)
    (stored : Option AuthTokens) (eid f : Nat) (lr : Except Nat Unit) (p : Nat)
    (hstored : strTruthy (stored.bind AuthTokens.refreshToken) = true)
    (hin : s.refreshInFlight = some p) :
    phase2 o s cfg err (.ok stored) eid f lr =
      ({ s with refreshSubscribers := s.refreshSubscribers ++ [Entry.mk eid cfg] },
       Phase2Result.joined p) := by
  simp [phase2, storedTokensOf, hstored, hin]

/-- Starting a renewal from the atomic post-`getTokens` segment when none
is in flight and the ceiling is not reached: the descriptor is queued, the
attempt counter is incremented and the new operation is recorded in
flight. -/
lemma phase2_start (o : Options) (s : RState) (cfg : Config) (err : Err)
    (stored : Option AuthTokens) (eid f : Nat) (lr : Except Nat Unit)
    (hstored : strTruthy (stored.bind AuthTokens.refreshToken) = true)
    (hin : s.refreshInFlight = none)
    (hcap : s.refreshAttemptCount < o.maxRetries) :
    phase2 o s cfg err (.ok stored) eid f lr =
      ({ s with
          refreshSubscribers := s.refreshSubscribers ++ [Entry.mk eid cfg]
          refreshAttemptCount := s.refreshAttemptCount + 1
          refreshInFlight := some f },
       Phase2Result.startedRefresh
         { state := { s with
             refreshSubscribers := s.refreshSubscribers ++ [Entry.mk eid cfg]
             refreshAttemptCount := s.refreshAttemptCount + 1
             refreshInFlight := some f }
           opId := f
           startedNetworkCall := true
           calledOnBeforeRefresh := true
           refreshTokenUsed :=
             some ((stored.bind AuthTokens.refreshToken).getD "") }) := by
  simp [phase2, storedTokensOf, hstored, hin, getOrStartRefresh, ge_iff_le,
    Nat.not_le.mpr hcap]

/-- A batch of qualifying failures processed while a renewal is in flight
all join it: the queue grows by one entry per failure, the in-flight
reference is untouched, and no step starts a network call. -/
lemma runQualified_joined (o : Options) (stored : Option AuthTokens) (err : Err)
    (lr : Except Nat Unit) (reqs : List (Config × Nat × Nat)) (s : RState)
    (p : Nat)
    (hstored : strTruthy (stored.bind AuthTokens.refreshToken) = true)
    (hin : s.refreshInFlight = some p) :
    (runQualified o stored err lr s reqs).1.refreshSubscribers =
      s.refreshSubscribers ++ reqs.map (fun r => Entry.mk r.2.1 r.1) ∧
    (runQualified o stored err lr s reqs).1.refreshInFlight = some p ∧
    (runQualified o stored err lr s reqs).2.countP startedCall = 0 := by
  induction reqs generalizing s with
  | nil => simp [runQualified, hin]
  | cons r rest ih =>
      obtain ⟨cfg, eid, f⟩ := r
      have hstep := phase2_join o s cfg err stored eid f lr p hstored hin
      have hin2 : ({ s with refreshSubscribers :=
          s.refreshSubscribers ++ [Entry.mk eid cfg] } : RState).refreshInFlight
          = some p := hin
      obtain ⟨ih1, ih2, ih3⟩ := ih _ hin2
      refine ⟨?_, ?_, ?_⟩
      · simp only [runQualified, hstep]
        rw [ih1]
        simp
      · simpa only [runQualified, hstep] using ih2
      · simp only [runQualified, hstep]
        simp [List.countP_cons, startedCall, ih3]

/-- The entry carried by a `drainSuccess` outcome keeps its continuation
identity. -/
lemma drainSuccessEntry_eid (o : Options) (tok : String) (e : Entry) :
    (match drainSuccessEntry o tok e with
      | .cancelled e2 => e2
      | .resubmitted e2 => e2).eid = e.eid := by
  by_cases h : e.config.aborted <;> simp [drainSuccessEntry, h]

/-- Whatever the renewal outcome, the resumption settles (or re-dispatches)
exactly the queued entries and leaves the queue empty. -/
lemma settledEntries_phase3 (o : Options) (s : RState) (storedT : AuthTokens)
    (outcome : Except Err AuthTokens) (stRes loRes : Except Nat Unit) :
    (phase3 o s storedT outcome stRes loRes).1.refreshSubscribers = [] ∧
    (settledEntries (phase3 o s storedT outcome stRes loRes).2).map Entry.eid =
      s.refreshSubscribers.map Entry.eid := by
  cases outcome with
  | error e =>
      by_cases ht : o.isRefreshFailureTerminal e
      · simp [phase3, handleRefreshError, ht, terminalAuthLost, drainFailure,
          settledEntries]
      · simp [phase3, handleRefreshError, ht, drainFailure, settledEntries]
  | ok refreshed =>
      by_cases hu : strTruthy refreshed.accessToken = true
      · refine ⟨by simp [phase3, hu, drainSuccess], ?_⟩
        simp only [phase3, hu, drainSuccess, settledEntries, Bool.not_true,
          Bool.false_eq_true, if_false, List.map_map]
        apply List.map_congr_left
        intro e _
        exact drainSuccessEntry_eid o (refreshed.accessToken.getD "") e
      · rw [Bool.not_eq_true] at hu
        by_cases ht : o.isRefreshFailureTerminal Err.invalidRefreshResponse
        · simp [phase3, hu, handleRefreshError, ht, terminalAuthLost,
            drainFailure, settledEntries]
        · simp [phase3, hu, handleRefreshError, ht, drainFailure, settledEntries]

/-- Claim C1: at most one renewal is in flight. A `getOrStartRefresh` call
made while one is in flight returns the very same pending outcome (same
promise identity, hence the same eventual success value or error) and
starts no second network call; and for any batch of qualifying failures
processed while none is in flight, exactly one renewal network call is
started, every failure's descriptor ends up queued, and whatever the
renewal outcome every queued continuation is settled (or re-dispatched)
when the queue drains. -/
theorem c1_single_flight (o : Options) (s : RState) (p : Nat) (tok : String)
    (f : Nat) (s0 : RState) (stored : AuthTokens) (err : Err)
    (lr : Except Nat Unit) (reqs : List (Config × Nat × Nat))
    (hin : s.refreshInFlight = some p)
    (hin0 : s0.refreshInFlight = none)
    (hcap : s0.refreshAttemptCount < o.maxRetries)
    (hstored : strTruthy stored.refreshToken = true)
    (hne : reqs ≠ []) :
    getOrStartRefresh s tok f =
      { state := s, opId := p, startedNetworkCall := false
        calledOnBeforeRefresh := false, refreshTokenUsed := none } ∧
    (runQualified o (some stored) err lr s0 reqs).2.countP startedCall = 1 ∧
    (runQualified o (some stored) err lr s0 reqs).1.refreshSubscribers =
      s0.refreshSubscribers ++ reqs.map (fun r => Entry.mk r.2.1 r.1) ∧
    (∀ (storedT : AuthTokens) (outcome : Except Err AuthTokens)
        (stRes loRes : Except Nat Unit),
      (phase3 o (runQualified o (some stored) err lr s0 reqs).1 storedT outcome
        stRes loRes).1.refreshSubscribers = [] ∧
      (settledEntries (phase3 o (runQualified o (some stored) err lr s0 reqs).1
        storedT outcome stRes loRes).2).map Entry.eid =
        ((runQualified o (some stored) err lr s0 reqs).1.refreshSubscribers).map
          Entry.eid) := by
  have hmain : (runQualified o (some stored) err lr s0 reqs).2.countP startedCall
        = 1 ∧
      (runQualified o (some stored) err lr s0 reqs).1.refreshSubscribers =
        s0.refreshSubscribers ++ reqs.map (fun r => Entry.mk r.2.1 r.1) := by
    cases reqs with
    | nil => exact absurd rfl hne
    | cons r rest =>
        obtain ⟨cfg, eid, fr⟩ := r
        have hstep := phase2_start o s0 cfg err (some stored) eid fr lr hstored
          hin0 hcap
        obtain ⟨j1, j2, j3⟩ := runQualified_joined o (some stored) err lr rest
          { s0 with
              refreshSubscribers := s0.refreshSubscribers ++ [Entry.mk eid cfg]
              refreshAttemptCount := s0.refreshAttemptCount + 1
              refreshInFlight := some fr } fr hstored rfl
        constructor
        · simp only [runQualified, hstep]
          simp [List.countP_cons, startedCall, j3]
        · simp only [runQualified, hstep]
          rw [j1]
          simp
  refine ⟨by simp [getOrStartRefresh, hin], hmain.1, hmain.2, ?_⟩
  intro storedT outcome stRes loRes
  exact settledEntries_phase3 o _ storedT outcome stRes loRes

/-- Witness for C1: two concurrent qualifying failures on a fresh state
produce one started renewal and two queued entries, while a join against
an in-flight operation returns that operation untouched. -/
theorem c1_single_flight_witness :
    ({ sEmpty with refreshInFlight := some 3 } : RState).refreshInFlight
      = some 3 ∧
    sEmpty.refreshInFlight = none ∧
    sEmpty.refreshAttemptCount < oSample.maxRetries ∧
    strTruthy toksSample.refreshToken = true ∧
    ([(cfgRetried, 10, 20), (cfgRetried, 11, 21)] :
      List (Config × Nat × Nat)) ≠ [] ∧
    (getOrStartRefresh { sEmpty with refreshInFlight := some 3 } "R1" 9 =
      { state := { sEmpty with refreshInFlight := some 3 }, opId := 3
        startedNetworkCall := false, calledOnBeforeRefresh := false
        refreshTokenUsed := none } ∧
      (runQualified oSample (some toksSample) errSample (Except.ok ()) sEmpty
        [(cfgRetried, 10, 20), (cfgRetried, 11, 21)]).2.countP startedCall = 1 ∧
      (runQualified oSample (some toksSample) errSample (Except.ok ()) sEmpty
        [(cfgRetried, 10, 20), (cfgRetried, 11, 21)]).1.refreshSubscribers =
        sEmpty.refreshSubscribers ++
          ([(cfgRetried, 10, 20), (cfgRetried, 11, 21)] :
            List (Config × Nat × Nat)).map (fun r => Entry.mk r.2.1 r.1)) := by
  have h := c1_single_flight oSample { sEmpty with refreshInFlight := some 3 } 3
    "R1" 9 sEmpty toksSample errSample (Except.ok ())
    [(cfgRetried, 10, 20), (cfgRetried, 11, 21)]
    (by decide) (by decide) (by decide) (by decide) (by decide)
  exact ⟨by decide, by decide, by decide, by decide, by decide,
    h.1, h.2.1, h.2.2.1⟩

end TokenRefresh
